import Mathlib

/-!
Verification of the PhotoGalleryLib core (src/PhotoGalleryLib.ts).

The library exposes a viewport size classifier with a change watcher
(`onSizeClassChange`), a grid generator (`generateGrid`) that binds eight
image URLs to the cells of an HTML table template, and helpers for a
presentation modal.  The embedding below translates the relevant parts:
pure helpers become Lean functions; the watcher's interaction with the
browser (the current viewport width, the single `window.onresize` slot)
becomes explicit state passing over a `WatcherState`; thrown exceptions
become error results that leave the state untouched, mirroring the
check-before-mutate order of the source.
-/

/-- The three size classes `"small" | "medium" | "large"` of the library. -/
inductive SizeClass
  | small
  | medium
  | large
deriving DecidableEq

/-- `getViewportSizeName` from src/PhotoGalleryLib.ts lines 17-25:
`width <= 600` gives small, else `width <= 800` gives medium, else large.
JavaScript widths are numbers; we embed them as rationals, which covers
zero, negative and non-integer widths. -/
def getViewportSizeName (width : ℚ) : SizeClass :=
  if width ≤ 600 then .small
  else if width ≤ 800 then .medium
  else .large

/-- Number of `<td><img></td>` cells in each `<tr>` row of the HTML template
selected by `generateGrid` (lines 52-111): the large template has 2 rows of
4 cells, the medium template 4 rows of 2 cells, the small template 8 rows
of 1 cell. -/
def templateRows (size : SizeClass) : List Nat :=
  match size with
  | .large => [4, 4]
  | .medium => [2, 2, 2, 2]
  | .small => [1, 1, 1, 1, 1, 1, 1, 1]

/-- The `querySelectorAll('img').forEach((imageTag, i) => imageTag.src =
imageUrls[i])` loop (lines 122-124) assigns the URLs to the template's
images in document order, which is row-major order of the table: the first
row receives the first `n₀` URLs, the second the next `n₁`, and so on. -/
def bindRows : List Nat → List String → List (List String)
  | [], _ => []
  | n :: ns, urls => urls.take n :: bindRows ns (urls.drop n)

/-- `generateGrid` from src/PhotoGalleryLib.ts lines 47-126: throws a
`RangeError` when `imageUrls.length !== 8`, otherwise builds the table for
`size` and binds the URLs to its cells.  The grid is observed as the list
of its rows, each row the list of the `src` values of its cells. -/
def generateGrid (imageUrls : List String) (size : SizeClass) :
    Except String (List (List String)) :=
  if imageUrls.length ≠ 8 then
    .error "The list of image urls has to contain exactly 8 elements."
  else
    .ok (bindRows (templateRows size) imageUrls)

/-- A JavaScript value passed as the callback argument of
`onSizeClassChange`: either a function (identified by an id so that
distinct registrations can be told apart) or any non-callable value. -/
inductive JSValue
  | func (id : Nat)
  | nonFunc
deriving DecidableEq

/-- The browser state the watcher interacts with: the current
`window.innerWidth` and the single `window.onresize` slot.  The handler
installed by `onSizeClassChange` (lines 30-36) is a closure over the
callback and the mutable `currentViewportSize` variable, so the slot holds
the callback id together with the last notified class. -/
structure WatcherState where
  width : ℚ
  handler : Option (Nat × SizeClass)
deriving DecidableEq

/-- `onSizeClassChange` from src/PhotoGalleryLib.ts lines 12-37.  The
`typeof callback !== 'function'` check (lines 13-15) throws before anything
else runs, so on a non-callable argument the state is returned unchanged
with no invocations.  Otherwise the callback is invoked once with the class
of the current width (lines 27-28) and the resize handler slot is
overwritten (line 30).  The second component lists the callback invocations
`(callback id, argument)` the call performs; the third is the thrown error,
if any. -/
def onSizeClassChange (cb : JSValue) (st : WatcherState) :
    WatcherState × List (Nat × SizeClass) × Option String :=
  match cb with
  | .nonFunc => (st, [], some "Callback parameter has to be called and of type function.")
  | .func id =>
      let cur := getViewportSizeName st.width
      ({ st with handler := some (id, cur) }, [(id, cur)], none)

/-- A `resize` event at width `w`: the browser updates `window.innerWidth`
and runs the installed `window.onresize` handler, if any.  The handler
(lines 30-36) recomputes the class and invokes the callback only when it
differs from the remembered `currentViewportSize`, updating the latter. -/
def resizeEvent (w : ℚ) (st : WatcherState) :
    WatcherState × List (Nat × SizeClass) :=
  let st' : WatcherState := { st with width := w }
  match st'.handler with
  | none => (st', [])
  | some (id, last) =>
      let new := getViewportSizeName w
      if new ≠ last then ({ st' with handler := some (id, new) }, [(id, new)])
      else (st', [])

/-- A sequence of resize events, collecting all callback invocations. -/
def runResizes (st : WatcherState) : List ℚ → WatcherState × List (Nat × SizeClass)
  | [] => (st, [])
  | w :: ws =>
      let r := resizeEvent w st
      let r' := runResizes r.1 ws
      (r'.1, r.2 ++ r'.2)

/-- Modelled from the spec: the PresentationController state machine of
§4.3 is not part of the library source (src/PhotoGalleryLib.ts only holds
the modal DOM helpers `createModal`, `initModal`, `openPresentationModal`,
`closePresentationModal`, `setModalImgSrc`; the machine lives in the
composition root, which is not in the repository).  State
`{ isOpen, currentIndex }` as in §3. -/
structure PresentationState where
  isOpen : Bool
  currentIndex : ℤ
deriving DecidableEq

/-- Modelled from the spec: the events of the §4.3 transition table. -/
inductive PEvent
  | click (i : ℤ)
  | close
  | previous
  | next
deriving DecidableEq

/-- Modelled from the spec: the §4.3 transition table.  A cell click opens
the overlay on the clicked index; close hides it, retaining the index;
previous and next wrap with `(i - 1 + 8) mod 8` and `(i + 1) mod 8` while
open and are no-ops while closed. -/
def pStep (st : PresentationState) : PEvent → PresentationState
  | .click i => { isOpen := true, currentIndex := i }
  | .close => { st with isOpen := false }
  | .previous =>
      if st.isOpen then { st with currentIndex := (st.currentIndex - 1 + 8) % 8 } else st
  | .next =>
      if st.isOpen then { st with currentIndex := (st.currentIndex + 1) % 8 } else st

/-- Modelled from the spec: the initial state of §3, created with
`isOpen = false`. -/
def pInit : PresentationState := ⟨false, 0⟩

/-- Modelled from the spec: running the machine over a list of events. -/
def pRun (st : PresentationState) : List PEvent → PresentationState
  | [] => st
  | e :: es => pRun (pStep st e) es

/-! ### Helper lemmas -/

theorem bindRows_flatten (rows : List Nat) (urls : List String)
    (h : rows.sum = urls.length) : (bindRows rows urls).flatten = urls := by
  induction rows generalizing urls with
  | nil =>
      simp only [bindRows, List.flatten_nil]
      simp only [List.sum_nil] at h
      exact (List.length_eq_zero.mp h.symm).symm
  | cons n ns ih =>
      simp only [List.sum_cons] at h
      have hn : n ≤ urls.length := by omega
      simp only [bindRows, List.flatten_cons]
      rw [ih _ (by simp [List.length_drop]; omega)]
      exact List.take_append_drop n urls

theorem bindRows_map_length (rows : List Nat) (urls : List String)
    (h : rows.sum = urls.length) : (bindRows rows urls).map List.length = rows := by
  induction rows generalizing urls with
  | nil => simp [bindRows]
  | cons n ns ih =>
      simp only [List.sum_cons] at h
      have hn : n ≤ urls.length := by omega
      simp only [bindRows, List.map_cons, List.length_take, Nat.min_eq_left hn]
      rw [ih _ (by simp [List.length_drop]; omega)]

theorem resizeEvent_handler_id (w : ℚ) (st : WatcherState) (id : Nat) (c : SizeClass)
    (h : st.handler = some (id, c)) :
    (∃ c', (resizeEvent w st).1.handler = some (id, c')) ∧
    ∀ p ∈ (resizeEvent w st).2, p.1 = id := by
  simp only [resizeEvent, h]
  by_cases hc : getViewportSizeName w ≠ c
  · simp [hc]
  · simp [hc]

theorem runResizes_handler_id (ws : List ℚ) (st : WatcherState) (id : Nat) (c : SizeClass)
    (h : st.handler = some (id, c)) :
    ∀ p ∈ (runResizes st ws).2, p.1 = id := by
  induction ws generalizing st c with
  | nil => simp [runResizes]
  | cons w ws ih =>
      obtain ⟨⟨c', hc'⟩, hmem⟩ := resizeEvent_handler_id w st id c h
      intro p hp
      simp only [runResizes, List.mem_append] at hp
      rcases hp with hp | hp
      · exact hmem p hp
      · exact ih _ _ hc' p hp

theorem pRun_bounds (es : List PEvent) (st : PresentationState)
    (h0 : 0 ≤ st.currentIndex) (h7 : st.currentIndex ≤ 7)
    (hes : ∀ i : ℤ, PEvent.click i ∈ es → 0 ≤ i ∧ i ≤ 7) :
    0 ≤ (pRun st es).currentIndex ∧ (pRun st es).currentIndex ≤ 7 := by
  induction es generalizing st with
  | nil => exact ⟨h0, h7⟩
  | cons e es ih =>
      have hes' : ∀ i : ℤ, PEvent.click i ∈ es → 0 ≤ i ∧ i ≤ 7 := by
        intro i hi
        exact hes i (List.mem_cons_of_mem _ hi)
      cases e with
      | click i =>
          obtain ⟨hi0, hi7⟩ := hes i (List.mem_cons_self _ _)
          exact ih _ hi0 hi7 hes'
      | close => exact ih _ h0 h7 hes'
      | previous =>
          by_cases ho : st.isOpen
          · refine ih _ ?_ ?_ hes' <;> simp [pStep, ho] <;> omega
          · refine ih _ ?_ ?_ hes' <;> simp [pStep, ho] <;> assumption
      | next =>
          by_cases ho : st.isOpen
          · refine ih _ ?_ ?_ hes' <;> simp [pStep, ho] <;> omega
          · refine ih _ ?_ ?_ hes' <;> simp [pStep, ho] <;> assumption

/-! ### Claim theorems -/

/-- C1: for every list of exactly 8 URL strings and every size class,
`generateGrid` succeeds and produces a grid whose shape is determined
solely by the size class (small: 8 rows of 1 cell, medium: 4 rows of 2
cells, large: 2 rows of 4 cells) and which binds the i-th URL to the i-th
cell in row-major order; in particular on `["a".."h"]` with `large` it
yields the 2×4 grid `[[a,b,c,d],[e,f,g,h]]`. -/
theorem generateGrid_shape_and_order (urls : List String) (size : SizeClass)
    (h : urls.length = 8) :
    (∃ g, generateGrid urls size = .ok g ∧
      g.map List.length = (match size with
        | .small => List.replicate 8 1
        | .medium => List.replicate 4 2
        | .large => List.replicate 2 4) ∧
      g.flatten = urls) ∧
    generateGrid ["a", "b", "c", "d", "e", "f", "g", "h"] .large =
      .ok [["a", "b", "c", "d"], ["e", "f", "g", "h"]] := by
  have hsum : (templateRows size).sum = urls.length := by
    cases size <;> simp [templateRows, h]
  constructor
  · refine ⟨bindRows (templateRows size) urls, by simp [generateGrid, h], ?_, ?_⟩
    · rw [bindRows_map_length _ _ hsum]
      cases size <;> rfl
    · exact bindRows_flatten _ _ hsum
  · rfl

/-- Witness for C1 at the concrete input `["a".."h"]`, `large`. -/
theorem generateGrid_shape_and_order_witness :
    (∃ g, generateGrid ["a", "b", "c", "d", "e", "f", "g", "h"] .large = .ok g ∧
      g.map List.length = List.replicate 2 4 ∧
      g.flatten = ["a", "b", "c", "d", "e", "f", "g", "h"]) ∧
    generateGrid ["a", "b", "c", "d", "e", "f", "g", "h"] .large =
      .ok [["a", "b", "c", "d"], ["e", "f", "g", "h"]] :=
  generateGrid_shape_and_order ["a", "b", "c", "d", "e", "f", "g", "h"] .large (by decide)

/-- C2: the size classification is pure and total over widths: every width
`w ≤ 600` is small, `600 < w ≤ 800` is medium, `w > 800` is large; the
boundary width 600 is small and the boundary width 800 is medium. -/
theorem getViewportSizeName_bands (w : ℚ) :
    (w ≤ 600 → getViewportSizeName w = .small) ∧
    (600 < w → w ≤ 800 → getViewportSizeName w = .medium) ∧
    (800 < w → getViewportSizeName w = .large) ∧
    getViewportSizeName 600 = .small ∧
    getViewportSizeName 800 = .medium := by
  unfold getViewportSizeName
  refine ⟨?_, ?_, ?_, by norm_num, by norm_num⟩
  · intro h
    rw [if_pos h]
  · intro h1 h2
    rw [if_neg (not_le.mpr h1), if_pos h2]
  · intro h
    rw [if_neg (not_le.mpr (by linarith)), if_neg (not_le.mpr h)]

/-- Witness for C2: one width from each band. -/
theorem getViewportSizeName_bands_witness :
    getViewportSizeName 500 = .small ∧
    getViewportSizeName 700 = .medium ∧
    getViewportSizeName 900 = .large :=
  ⟨(getViewportSizeName_bands 500).1 (by norm_num),
   (getViewportSizeName_bands 700).2.1 (by norm_num) (by norm_num),
   (getViewportSizeName_bands 900).2.2.1 (by norm_num)⟩

/-- C3: `generateGrid` fails (throws the `RangeError`) exactly when the URL
list's length differs from 8, and in the failing case no grid is produced
(the result carries only the error, never a partial grid). -/
theorem generateGrid_error_iff (urls : List String) (size : SizeClass) :
    ((∃ e, generateGrid urls size = .error e) ↔ urls.length ≠ 8) ∧
    (∀ g, generateGrid urls size = .ok g → urls.length = 8) := by
  unfold generateGrid
  by_cases h : urls.length = 8
  · simp [h]
  · simp [h]

/-- Witness for C3: lists of length 7 and 9 fail, a list of length 8 does not. -/
theorem generateGrid_error_iff_witness :
    ((∃ e, generateGrid ["a", "b", "c", "d", "e", "f", "g"] .large = .error e) ↔
      (["a", "b", "c", "d", "e", "f", "g"] : List String).length ≠ 8) ∧
    (∀ g, generateGrid ["a", "b", "c", "d", "e", "f", "g"] .large = .ok g →
      (["a", "b", "c", "d", "e", "f", "g"] : List String).length = 8) :=
  generateGrid_error_iff ["a", "b", "c", "d", "e", "f", "g"] .large

/-- C10: the size classification is total over all rational widths,
including zero, negative and non-integer widths: every width is mapped to
exactly one of the three classes, and every width `w ≤ 600` — including
negative widths — is classified small rather than rejected. -/
theorem getViewportSizeName_total :
    (∀ w : ℚ, getViewportSizeName w = .small ∨ getViewportSizeName w = .medium ∨
      getViewportSizeName w = .large) ∧
    (∀ w : ℚ, w ≤ 600 → getViewportSizeName w = .small) ∧
    getViewportSizeName 0 = .small ∧
    getViewportSizeName (-200) = .small ∧
    getViewportSizeName (1201 / 2) = .medium := by
  refine ⟨?_, ?_, by norm_num [getViewportSizeName], by norm_num [getViewportSizeName],
    by norm_num [getViewportSizeName]⟩
  · intro w
    unfold getViewportSizeName
    by_cases h1 : w ≤ 600
    · simp [h1]
    · by_cases h2 : w ≤ 800 <;> simp [h1, h2]
  · intro w h
    unfold getViewportSizeName
    rw [if_pos h]

/-- C4: in the presentation state machine, previous from `Open(i)` yields
`Open((i - 1 + 8) mod 8)` and next yields `Open((i + 1) mod 8)`, so
previous from `Open(0)` gives `Open(7)` and next from `Open(7)` gives
`Open(0)`; and in every state reachable from the initial state by events
whose click indices are in `[0,7]`, `currentIndex` stays in `[0,7]`. -/
theorem presentation_wraparound_invariant :
    (∀ i : ℤ, pStep ⟨true, i⟩ .previous = ⟨true, (i - 1 + 8) % 8⟩) ∧
    (∀ i : ℤ, pStep ⟨true, i⟩ .next = ⟨true, (i + 1) % 8⟩) ∧
    pStep ⟨true, 0⟩ .previous = ⟨true, 7⟩ ∧
    pStep ⟨true, 7⟩ .next = ⟨true, 0⟩ ∧
    (∀ es : List PEvent, (∀ i : ℤ, PEvent.click i ∈ es → 0 ≤ i ∧ i ≤ 7) →
      0 ≤ (pRun pInit es).currentIndex ∧ (pRun pInit es).currentIndex ≤ 7) := by
  refine ⟨?_, ?_, by decide, by decide, ?_⟩
  · intro i
    simp [pStep]
  · intro i
    simp [pStep]
  · intro es hes
    exact pRun_bounds es pInit (by decide) (by decide) hes

/-- C5: the watcher never notifies redundantly: an invocation on a resize
happens only when a handler is installed and the newly computed class
differs from the previously notified one; and after registration at a
width in the small band, the width sequence `[500, 550, 700, 750, 900]`
produces exactly the two notifications medium (at 700) and large (at 900). -/
theorem watcher_hysteresis :
    (∀ (st : WatcherState) (w : ℚ) (p : Nat × SizeClass), p ∈ (resizeEvent w st).2 →
      ∃ id last, st.handler = some (id, last) ∧ getViewportSizeName w ≠ last ∧
        p = (id, getViewportSizeName w)) ∧
    (∀ (w₀ : ℚ) (id : Nat), getViewportSizeName w₀ = .small →
      (runResizes (onSizeClassChange (.func id) ⟨w₀, none⟩).1 [500, 550, 700, 750, 900]).2 =
        [(id, .medium), (id, .large)]) := by
  constructor
  · intro st w p hp
    obtain ⟨sw, sh⟩ := st
    cases sh with
    | none => simp [resizeEvent] at hp
    | some pr =>
        obtain ⟨id, last⟩ := pr
        by_cases hc : getViewportSizeName w = last
        · simp [resizeEvent, hc] at hp
        · simp [resizeEvent, hc] at hp
          exact ⟨id, last, rfl, hc, by simp [hp]⟩
  · intro w₀ id h
    have hreg : (onSizeClassChange (.func id) ⟨w₀, none⟩).1 =
        ⟨w₀, some (id, SizeClass.small)⟩ := by
      simp [onSizeClassChange, h]
    rw [hreg]
    have h500 : getViewportSizeName 500 = SizeClass.small := by norm_num [getViewportSizeName]
    have h550 : getViewportSizeName 550 = SizeClass.small := by norm_num [getViewportSizeName]
    have h700 : getViewportSizeName 700 = SizeClass.medium := by norm_num [getViewportSizeName]
    have h750 : getViewportSizeName 750 = SizeClass.medium := by norm_num [getViewportSizeName]
    have h900 : getViewportSizeName 900 = SizeClass.large := by norm_num [getViewportSizeName]
    simp [runResizes, resizeEvent, h500, h550, h700, h750, h900]

/-- Witness for C5: the only-if direction instantiated on a resize from the
small band to width 900, and the five-width scenario from width 500. -/
theorem watcher_hysteresis_witness :
    (∃ id last, (⟨500, some (7, SizeClass.small)⟩ : WatcherState).handler = some (id, last) ∧
      getViewportSizeName 900 ≠ last ∧
      ((7 : Nat), SizeClass.large) = (id, getViewportSizeName 900)) ∧
    (runResizes (onSizeClassChange (.func 7) ⟨500, none⟩).1 [500, 550, 700, 750, 900]).2 =
      [(7, .medium), (7, .large)] :=
  ⟨watcher_hysteresis.1 ⟨500, some (7, SizeClass.small)⟩ 900 (7, SizeClass.large)
      (by
        have h900 : getViewportSizeName 900 = SizeClass.large := by
          norm_num [getViewportSizeName]
        simp [resizeEvent, h900]),
    watcher_hysteresis.2 500 7 (by norm_num [getViewportSizeName])⟩

/-- C6: registering a callable callback synchronously invokes it exactly
once, with the class computed from the current viewport width, regardless
of the prior state (any prior width, any previously installed handler),
and throws nothing. -/
theorem watcher_initial_notification (st : WatcherState) (id : Nat) :
    (onSizeClassChange (.func id) st).2.1 = [(id, getViewportSizeName st.width)] ∧
    ((onSizeClassChange (.func id) st).2.1).length = 1 ∧
    (onSizeClassChange (.func id) st).2.2 = none :=
  ⟨rfl, rfl, rfl⟩

/-- C7: core-raised errors are atomic: a non-callable callback makes
`onSizeClassChange` throw its `TypeError` with the state unchanged and no
callback invoked, and a URL list of length ≠ 8 makes `generateGrid` return
only its `RangeError`, never any grid. -/
theorem core_errors_atomic :
    (∀ st : WatcherState, onSizeClassChange .nonFunc st =
      (st, [], some "Callback parameter has to be called and of type function.")) ∧
    (∀ (urls : List String) (size : SizeClass), urls.length ≠ 8 →
      generateGrid urls size =
        .error "The list of image urls has to contain exactly 8 elements.") := by
  constructor
  · intro st
    rfl
  · intro urls size h
    simp [generateGrid, h]

/-- C8: last registration wins: after two successive registrations, every
invocation produced by any later sequence of resize events carries the
second callback, never the first. -/
theorem watcher_last_registration_wins (st : WatcherState) (c₁ c₂ : Nat) (ws : List ℚ) :
    ∀ p ∈ (runResizes
        (onSizeClassChange (.func c₂) (onSizeClassChange (.func c₁) st).1).1 ws).2,
      p.1 = c₂ := by
  apply runResizes_handler_id _ _ c₂ (getViewportSizeName st.width)
  rfl

/-- Witness for C8: registering callback 1 then callback 2 from width 500
and resizing to 900 produces an invocation of callback 2. -/
theorem watcher_last_registration_wins_witness :
    ((2 : Nat), SizeClass.large) ∈ (runResizes
        (onSizeClassChange (.func 2) (onSizeClassChange (.func 1) ⟨500, none⟩).1).1 [900]).2 ∧
    ((2 : Nat), SizeClass.large).1 = 2 :=
  ⟨by
    have h500 : getViewportSizeName 500 = SizeClass.small := by norm_num [getViewportSizeName]
    have h900 : getViewportSizeName 900 = SizeClass.large := by norm_num [getViewportSizeName]
    simp [onSizeClassChange, runResizes, resizeEvent, h500, h900],
   watcher_last_registration_wins ⟨500, none⟩ 1 2 [900] (2, SizeClass.large)
    (by
      have h500 : getViewportSizeName 500 = SizeClass.small := by norm_num [getViewportSizeName]
      have h900 : getViewportSizeName 900 = SizeClass.large := by norm_num [getViewportSizeName]
      simp [onSizeClassChange, runResizes, resizeEvent, h500, h900])⟩

/-- C9: `generateGrid` is deterministic and idempotent: two calls with the
same valid 8-element URL list and size class both succeed and yield
structurally identical grids. -/
theorem generateGrid_deterministic_idempotent (urls : List String) (size : SizeClass)
    (h : urls.length = 8) :
    ∃ g₁ g₂, generateGrid urls size = .ok g₁ ∧ generateGrid urls size = .ok g₂ ∧ g₁ = g₂ := by
  refine ⟨bindRows (templateRows size) urls, bindRows (templateRows size) urls, ?_, ?_, rfl⟩ <;>
    simp [generateGrid, h]

/-- Witness for C9 at the concrete input `["a".."h"]`, `medium`. -/
theorem generateGrid_deterministic_idempotent_witness :
    ∃ g₁ g₂, generateGrid ["a", "b", "c", "d", "e", "f", "g", "h"] .medium = .ok g₁ ∧
      generateGrid ["a", "b", "c", "d", "e", "f", "g", "h"] .medium = .ok g₂ ∧ g₁ = g₂ :=
  generateGrid_deterministic_idempotent ["a", "b", "c", "d", "e", "f", "g", "h"] .medium
    (by decide)
